import Mathlib

/-!
Verification of the WebWorldWind `CelestialProjection` utility
(`src/util/CelestialProjection.js`).

The JavaScript module is embedded shallowly: JavaScript numbers are
idealized as exact rationals (for the floor-based calendar arithmetic)
and reals (for the trigonometric solar-position computations).  Fallible
entry points, which throw `ArgumentError` on missing arguments, are
modelled as `Except`-valued functions over `Option` inputs.
-/

/-- A JavaScript `Date`, reduced to the UTC fields the module reads:
`getUTCFullYear`, `getUTCMonth() + 1` (so `month` is 1..12),
`getUTCDate`, `getUTCHours`, `getUTCMinutes`, `getUTCSeconds`, plus the
sub-second component (`getUTCMilliseconds`) that a `Date` carries but
`computeJulianDate` never reads. -/
structure DateTime where
  year : ℤ
  month : ℤ
  day : ℤ
  hour : ℤ
  minute : ℤ
  second : ℤ
  millisecond : ℤ
deriving DecidableEq

/-- `computeJulianDate` from `CelestialProjection.js`, line by line.
The final `JD0h + dayFraction` is returned; `millisecond` is never read. -/
def computeJulianDate (date : DateTime) : ℚ :=
  let year := date.year
  let month := date.month
  let day := date.day
  let hour := date.hour
  let minute := date.minute
  let second := date.second
  let dayFraction : ℚ := ((hour : ℚ) + (minute : ℚ) / 60 + (second : ℚ) / 3600) / 24
  let year := if month ≤ 2 then year - 1 else year
  let month := if month ≤ 2 then month + 12 else month
  let A : ℤ := ⌊(year : ℚ) / 100⌋
  let B : ℤ := 2 - A + ⌊(A : ℚ) / 4⌋
  let JD0h : ℚ := ((⌊(365.25 : ℚ) * ((year : ℚ) + 4716)⌋ : ℤ) : ℚ) +
    ((⌊(30.6001 : ℚ) * ((month : ℚ) + 1)⌋ : ℤ) : ℚ) + (day : ℚ) + (B : ℚ) - 1524.5
  JD0h + dayFraction

/-- Gregorian leap-year rule (used only to state calendar validity;
the source itself never tests leap years). -/
def isLeapYear (y : ℤ) : Prop :=
  (y % 4 = 0 ∧ y % 100 ≠ 0) ∨ y % 400 = 0

instance (y : ℤ) : Decidable (isLeapYear y) := by
  unfold isLeapYear; infer_instance

/-- Number of days in a month of the Gregorian calendar. -/
def daysInMonth (y m : ℤ) : ℤ :=
  if m = 2 then (if isLeapYear y then 29 else 28)
  else if m = 4 ∨ m = 6 ∨ m = 9 ∨ m = 11 then 30 else 31

/-- The date-time is a valid UTC calendar instant (whole milliseconds). -/
def isValidDateTime (t : DateTime) : Prop :=
  1 ≤ t.month ∧ t.month ≤ 12 ∧ 1 ≤ t.day ∧ t.day ≤ daysInMonth t.year t.month ∧
  0 ≤ t.hour ∧ t.hour ≤ 23 ∧ 0 ≤ t.minute ∧ t.minute ≤ 59 ∧
  0 ≤ t.second ∧ t.second ≤ 59 ∧ 0 ≤ t.millisecond ∧ t.millisecond ≤ 999

instance (t : DateTime) : Decidable (isValidDateTime t) := by
  unfold isValidDateTime; infer_instance

/-- `t1` precedes `t2` at whole-second resolution: lexicographic order on
the six fields that `computeJulianDate` actually reads. -/
def secondsLT (t1 t2 : DateTime) : Prop :=
  t1.year < t2.year ∨ (t1.year = t2.year ∧
    (t1.month < t2.month ∨ (t1.month = t2.month ∧
      (t1.day < t2.day ∨ (t1.day = t2.day ∧
        (t1.hour < t2.hour ∨ (t1.hour = t2.hour ∧
          (t1.minute < t2.minute ∨ (t1.minute = t2.minute ∧
            t1.second < t2.second)))))))))

instance (t1 t2 : DateTime) : Decidable (secondsLT t1 t2) := by
  unfold secondsLT; infer_instance

/-- `t1` is strictly earlier than `t2` as a UTC instant, at the full
millisecond resolution a JavaScript `Date` carries. -/
def instantLT (t1 t2 : DateTime) : Prop :=
  secondsLT t1 t2 ∨ (t1.year = t2.year ∧ t1.month = t2.month ∧ t1.day = t2.day ∧
    t1.hour = t2.hour ∧ t1.minute = t2.minute ∧ t1.second = t2.second ∧
    t1.millisecond < t2.millisecond)

instance (t1 t2 : DateTime) : Decidable (instantLT t1 t2) := by
  unfold instantLT; infer_instance

/-- The integer day index underlying the code's `JD0h`, as a function of
the calendar triple.  Integer division on `ℤ` (`Int.ediv`) is floor
division for the positive divisors used here. -/
def jdnYMD (year month day : ℤ) : ℤ :=
  let y := if month ≤ 2 then year - 1 else year
  let m := if month ≤ 2 then month + 12 else month
  1461 * (y + 4716) / 4 + 153 * (m + 1) / 5 + day + 2 - y / 100 + y / 100 / 4 - 1524

/-- The integer day index underlying the code's `JD0h`: for months in
1..12, `computeJulianDate t = jdNumber t - 1/2 + secondsOfDay/86400`. -/
def jdNumber (t : DateTime) : ℤ :=
  jdnYMD t.year t.month t.day

lemma floor_ratCast_mul_36525 (y : ℤ) :
    ⌊(365.25 : ℚ) * ((y : ℚ) + 4716)⌋ = 1461 * (y + 4716) / 4 := by
  have h : (365.25 : ℚ) * ((y : ℚ) + 4716) = ((1461 * (y + 4716) : ℤ) : ℚ) / ((4 : ℕ) : ℚ) := by
    push_cast; ring
  rw [h, Rat.floor_intCast_div_natCast]; norm_num

lemma floor_ratCast_div_100 (a : ℤ) : ⌊(a : ℚ) / 100⌋ = a / 100 := by
  have h : (a : ℚ) / 100 = ((a : ℤ) : ℚ) / ((100 : ℕ) : ℚ) := by norm_num
  rw [h, Rat.floor_intCast_div_natCast]; norm_num

lemma floor_ratCast_div_4 (a : ℤ) : ⌊(a : ℚ) / 4⌋ = a / 4 := by
  have h : (a : ℚ) / 4 = ((a : ℤ) : ℚ) / ((4 : ℕ) : ℚ) := by norm_num
  rw [h, Rat.floor_intCast_div_natCast]; norm_num

lemma floor_ratCast_mul_306001 (m : ℤ) (h3 : 3 ≤ m) (h14 : m ≤ 14) :
    ⌊(30.6001 : ℚ) * ((m : ℚ) + 1)⌋ = 153 * (m + 1) / 5 := by
  interval_cases m <;> norm_num [Int.floor_eq_iff]

/-- For calendar months, `computeJulianDate` splits into an integer day
index plus the second-of-day fraction. -/
lemma computeJulianDate_eq_jdNumber (t : DateTime) (h1 : 1 ≤ t.month) (h2 : t.month ≤ 12) :
    computeJulianDate t =
      ((jdNumber t : ℤ) : ℚ) - 1 / 2 +
        ((3600 * t.hour + 60 * t.minute + t.second : ℤ) : ℚ) / 86400 := by
  unfold computeJulianDate jdNumber jdnYMD
  rcases le_or_lt t.month 2 with hm | hm
  · simp only [if_pos hm]
    rw [floor_ratCast_mul_36525, floor_ratCast_div_100,
      floor_ratCast_mul_306001 _ (by omega) (by omega), floor_ratCast_div_4]
    push_cast
    ring
  · simp only [if_neg (not_le.mpr hm)]
    rw [floor_ratCast_mul_36525, floor_ratCast_div_100,
      floor_ratCast_mul_306001 _ (by omega) (by omega), floor_ratCast_div_4]
    push_cast
    ring

lemma daysInMonth_le (y m : ℤ) : daysInMonth y m ≤ 31 := by
  unfold daysInMonth
  split_ifs <;> omega

/-- Expansion of the year term into small divisions (1461 = 4*365 + 1,
1461*4716 = 4*1722519). -/
lemma ediv_1461_expand (y : ℤ) : 1461 * (y + 4716) / 4 = 365 * y + y / 4 + 1722519 := by
  omega

/-- Expansion of the month term into small divisions. -/
lemma ediv_153_expand (m : ℤ) : 153 * (m + 1) / 5 = 30 * (m + 1) + 3 * (m + 1) / 5 := by
  omega

/-- Any valid day of year `y` is at most December 31 of year `y`. -/
lemma jdnYMD_le_dec31 (y m d : ℤ) (h1 : 1 ≤ m) (h2 : m ≤ 12) (h3 : 1 ≤ d) (h4 : d ≤ 31) :
    jdnYMD y m d ≤ jdnYMD y 12 31 := by
  simp only [jdnYMD]
  split_ifs <;> omega

/-- Any valid day of year `y` is at least January 1 of year `y`. -/
lemma jan1_le_jdnYMD (y m d : ℤ) (h1 : 1 ≤ m) (h2 : m ≤ 12) (h3 : 1 ≤ d) :
    jdnYMD y 1 1 ≤ jdnYMD y m d := by
  simp only [jdnYMD]
  split_ifs <;> omega

/-- December 31 precedes January 1 of the following year. -/
lemma jdnYMD_dec31_lt_jan1 (y : ℤ) : jdnYMD y 12 31 < jdnYMD (y + 1) 1 1 := by
  simp only [jdnYMD, ediv_1461_expand]
  split_ifs <;> omega

/-- January 1 is monotone in the year. -/
lemma jdnYMD_jan1_mono (y z : ℤ) (h : y ≤ z) : jdnYMD y 1 1 ≤ jdnYMD z 1 1 := by
  simp only [jdnYMD, ediv_1461_expand]
  split_ifs <;> omega

set_option maxHeartbeats 4000000 in
/-- Within one year, the day index is strictly monotone on valid dates. -/
lemma jdnYMD_sameYear_lt (y m1 d1 m2 d2 : ℤ)
    (a1 : 1 ≤ m1) (a2 : m1 ≤ 12) (a3 : 1 ≤ d1) (a4 : d1 ≤ daysInMonth y m1)
    (b1 : 1 ≤ m2) (b2 : m2 ≤ 12) (b3 : 1 ≤ d2)
    (h : m1 < m2 ∨ (m1 = m2 ∧ d1 < d2)) :
    jdnYMD y m1 d1 < jdnYMD y m2 d2 := by
  simp only [daysInMonth, isLeapYear] at a4
  simp only [jdnYMD, ediv_1461_expand, ediv_153_expand]
  rcases le_or_lt 3 m1 with hm1 | hm1
  · rcases le_or_lt 3 m2 with hm2 | hm2
    · interval_cases m1 <;> interval_cases m2 <;> split_ifs at a4 ⊢ <;> omega
    · split_ifs at a4 ⊢ <;> omega
  · split_ifs at a4 ⊢ <;> omega

/-- Strict monotonicity of the integer day index over valid calendar
dates, lexicographically ordered by (year, month, day). -/
lemma jdNumber_lt (t1 t2 : DateTime) (v1 : isValidDateTime t1) (v2 : isValidDateTime t2)
    (h : t1.year < t2.year ∨ (t1.year = t2.year ∧ (t1.month < t2.month ∨
      (t1.month = t2.month ∧ t1.day < t2.day)))) :
    jdNumber t1 < jdNumber t2 := by
  obtain ⟨a1, a2, a3, a4, -⟩ := v1
  obtain ⟨b1, b2, b3, b4, -⟩ := v2
  simp only [jdNumber]
  rcases h with hy | ⟨hy, hmd⟩
  · calc jdnYMD t1.year t1.month t1.day
        ≤ jdnYMD t1.year 12 31 :=
          jdnYMD_le_dec31 _ _ _ a1 a2 a3 (a4.trans (daysInMonth_le _ _))
      _ < jdnYMD (t1.year + 1) 1 1 := jdnYMD_dec31_lt_jan1 _
      _ ≤ jdnYMD t2.year 1 1 := jdnYMD_jan1_mono _ _ (by omega)
      _ ≤ jdnYMD t2.year t2.month t2.day := jan1_le_jdnYMD _ _ _ b1 b2 b3
  · rw [hy] at a4 ⊢
    exact jdnYMD_sameYear_lt t2.year t1.month t1.day t2.month t2.day a1 a2 a3 a4 b1 b2 b3 hmd

/-- `computeJulianDate` is strictly monotone at whole-second resolution
over valid UTC date-times. -/
theorem computeJulianDate_strictMono_wholeSeconds (t1 t2 : DateTime)
    (v1 : isValidDateTime t1) (v2 : isValidDateTime t2) (h : secondsLT t1 t2) :
    computeJulianDate t1 < computeJulianDate t2 := by
  have b1 := v1; have b2 := v2
  obtain ⟨p1, p2, p3, p4, p5, p6, p7, p8, p9, p10, p11, p12⟩ := b1
  obtain ⟨q1, q2, q3, q4, q5, q6, q7, q8, q9, q10, q11, q12⟩ := b2
  rw [computeJulianDate_eq_jdNumber t1 p1 p2, computeJulianDate_eq_jdNumber t2 q1 q2]
  have hcase : (t1.year < t2.year ∨ (t1.year = t2.year ∧ (t1.month < t2.month ∨
      (t1.month = t2.month ∧ t1.day < t2.day)))) ∨
      (t1.year = t2.year ∧ t1.month = t2.month ∧ t1.day = t2.day ∧
        3600 * t1.hour + 60 * t1.minute + t1.second <
          3600 * t2.hour + 60 * t2.minute + t2.second) := by
    unfold secondsLT at h
    omega
  rcases hcase with hd | ⟨hy, hm, hdy, ht⟩
  · have hN : jdNumber t1 < jdNumber t2 := jdNumber_lt t1 t2 v1 v2 hd
    have hN1 : (jdNumber t1 : ℚ) + 1 ≤ (jdNumber t2 : ℚ) := by exact_mod_cast hN
    have hu : ((3600 * t1.hour + 60 * t1.minute + t1.second : ℤ) : ℚ) / 86400 < 1 := by
      rw [div_lt_one (by norm_num)]
      exact_mod_cast (by omega : (3600 * t1.hour + 60 * t1.minute + t1.second : ℤ) < 86400)
    have hv : (0 : ℚ) ≤ ((3600 * t2.hour + 60 * t2.minute + t2.second : ℤ) : ℚ) / 86400 := by
      apply div_nonneg _ (by norm_num)
      exact_mod_cast (by omega : (0 : ℤ) ≤ 3600 * t2.hour + 60 * t2.minute + t2.second)
    linarith
  · have hN : jdNumber t1 = jdNumber t2 := by
      unfold jdNumber jdnYMD
      rw [hy, hm, hdy]
    have ht2 : ((3600 * t1.hour + 60 * t1.minute + t1.second : ℤ) : ℚ) <
        ((3600 * t2.hour + 60 * t2.minute + t2.second : ℤ) : ℚ) := by exact_mod_cast ht
    have hw := (div_lt_div_iff_of_pos_right (show (0 : ℚ) < 86400 by norm_num)).mpr ht2
    rw [hN]
    linarith

/-- Witness for `computeJulianDate_strictMono_wholeSeconds` at two
concrete date-times one second apart. -/
theorem computeJulianDate_strictMono_wholeSeconds_witness :
    isValidDateTime ⟨2000, 1, 1, 0, 0, 0, 0⟩ ∧ isValidDateTime ⟨2000, 1, 1, 0, 0, 1, 0⟩ ∧
    secondsLT ⟨2000, 1, 1, 0, 0, 0, 0⟩ ⟨2000, 1, 1, 0, 0, 1, 0⟩ ∧
    computeJulianDate ⟨2000, 1, 1, 0, 0, 0, 0⟩ < computeJulianDate ⟨2000, 1, 1, 0, 0, 1, 0⟩ :=
  ⟨by decide, by decide, by decide,
    computeJulianDate_strictMono_wholeSeconds _ _ (by decide) (by decide) (by decide)⟩

/-- Two valid instants in the same UTC second, 1 ms apart: strictly
ordered in time, yet mapped to the same Julian date, because
`computeJulianDate` reads only whole seconds.  This refutes strict
monotonicity over millisecond-resolution date-times. -/
theorem computeJulianDate_not_strictMono_milliseconds :
    isValidDateTime ⟨2000, 1, 1, 0, 0, 0, 0⟩ ∧ isValidDateTime ⟨2000, 1, 1, 0, 0, 0, 1⟩ ∧
    instantLT ⟨2000, 1, 1, 0, 0, 0, 0⟩ ⟨2000, 1, 1, 0, 0, 0, 1⟩ ∧
    computeJulianDate ⟨2000, 1, 1, 0, 0, 0, 0⟩ = computeJulianDate ⟨2000, 1, 1, 0, 0, 0, 1⟩ :=
  ⟨by decide, by decide, by decide, rfl⟩

/-- C10: `computeJulianDate` ignores sub-second components: any two
`Date` values agreeing on the whole-second UTC fields (year, month, day,
hour, minute, second) map to exactly the same Julian date. -/
theorem computeJulianDate_ignores_subseconds (t1 t2 : DateTime)
    (hy : t1.year = t2.year) (hmo : t1.month = t2.month) (hd : t1.day = t2.day)
    (hh : t1.hour = t2.hour) (hmi : t1.minute = t2.minute) (hs : t1.second = t2.second) :
    computeJulianDate t1 = computeJulianDate t2 := by
  unfold computeJulianDate
  rw [hy, hmo, hd, hh, hmi, hs]

/-- Witness for `computeJulianDate_ignores_subseconds`: two instants 666
milliseconds apart within the same UTC second. -/
theorem computeJulianDate_ignores_subseconds_witness :
    computeJulianDate ⟨2020, 6, 15, 12, 34, 56, 123⟩ =
      computeJulianDate ⟨2020, 6, 15, 12, 34, 56, 789⟩ :=
  computeJulianDate_ignores_subseconds _ _ rfl rfl rfl rfl rfl rfl

/-- The Julian-date formula exactly as the specification states it
(section 4.1): day fraction, January/February adjustment, Gregorian
correction term `B`, and `JD0h`. -/
def computeJulianDateSpec (t : DateTime) : ℚ :=
  let dayFraction : ℚ := ((t.hour : ℚ) + (t.minute : ℚ) / 60 + (t.second : ℚ) / 3600) / 24
  let Y : ℤ := if t.month ≤ 2 then t.year - 1 else t.year
  let M : ℤ := if t.month ≤ 2 then t.month + 12 else t.month
  let B : ℤ := 2 - ⌊(Y : ℚ) / 100⌋ + ⌊((⌊(Y : ℚ) / 100⌋ : ℤ) : ℚ) / 4⌋
  ((⌊(365.25 : ℚ) * ((Y : ℚ) + 4716)⌋ : ℤ) : ℚ) + ((⌊(30.6001 : ℚ) * ((M : ℚ) + 1)⌋ : ℤ) : ℚ) +
    (t.day : ℚ) + (B : ℚ) - 1524.5 + dayFraction

/-- C4: `computeJulianDate` returns `JD0h + dayFraction` with
`dayFraction = (hour + minute/60 + second/3600)/24`, the January and
February adjustment `Y -= 1, M += 12`, `B = 2 - floor(Y/100) +
floor(floor(Y/100)/4)`, and `JD0h = floor(365.25*(Y+4716)) +
floor(30.6001*(M+1)) + D + B - 1524.5`. -/
theorem computeJulianDate_formula_spec (t : DateTime) :
    computeJulianDate t = computeJulianDateSpec t := rfl

noncomputable section

/-- Modelled from the spec: the external angle utility's
degrees-to-radians conversion constant, π/180 (spec sections 6 and 9). -/
def DEGREES_TO_RADIANS : ℝ := Real.pi / 180

/-- Modelled from the spec: the external angle utility's
radians-to-degrees conversion constant, 180/π (spec sections 6 and 9). -/
def RADIANS_TO_DEGREES : ℝ := 180 / Real.pi

/-- A celestial location: declination and right ascension, in degrees. -/
structure CelestialLocation where
  declination : ℝ
  rightAscension : ℝ

/-- A geographic location: latitude and longitude, in degrees. -/
structure GeographicLocation where
  latitude : ℝ
  longitude : ℝ

/-- `normalizeAngle` from `CelestialProjection.js`:
`360 * (angle / 360 - Math.floor(angle / 360))`. -/
def normalizeAngle (angle : ℝ) : ℝ :=
  360 * (angle / 360 - ⌊angle / 360⌋)

/-- Modelled from the spec: `Angle.normalizedDegreesLongitude` (from the
external `geom/Angle` utility, not part of this module's source) wraps
any angle in degrees into the symmetric range (-180, 180] (spec section
4.4 step 4). -/
def normalizedDegreesLongitude (degrees : ℝ) : ℝ :=
  180 - normalizeAngle (180 - degrees)

/-- `computeSunCelestialLocation` from `CelestialProjection.js`,
line by line. -/
def computeSunCelestialLocation (julianDate : ℝ) : CelestialLocation :=
  let numDays := julianDate - 2451545
  let meanLongitude := normalizeAngle (280.460 + 0.9856474 * numDays)
  let meanAnomaly := normalizeAngle (357.528 + 0.9856003 * numDays) * DEGREES_TO_RADIANS
  let eclipticLongitude := meanLongitude + 1.915 * Real.sin meanAnomaly +
    0.02 * Real.sin (2 * meanAnomaly)
  let eclipticLongitudeRad := eclipticLongitude * DEGREES_TO_RADIANS
  let obliquityOfTheEcliptic := (23.439 - 0.0000004 * numDays) * DEGREES_TO_RADIANS
  let declination :=
    Real.arcsin (Real.sin obliquityOfTheEcliptic * Real.sin eclipticLongitudeRad) *
      RADIANS_TO_DEGREES
  let rightAscension :=
    Real.arctan (Real.cos obliquityOfTheEcliptic * Real.tan eclipticLongitudeRad) *
      RADIANS_TO_DEGREES
  let rightAscension := if 90 ≤ eclipticLongitude ∧ eclipticLongitude < 270 then
    rightAscension + 180 else rightAscension
  { declination := declination, rightAscension := normalizeAngle rightAscension }

/-- `celestialToGeographic` from `CelestialProjection.js`, line by line. -/
def celestialToGeographic (celestialLocation : CelestialLocation) (julianDate : ℝ) :
    GeographicLocation :=
  let numDays := julianDate - 2451545
  let GMST := normalizeAngle (280.46061837 + 360.98564736629 * numDays)
  let GHA := normalizeAngle (GMST - celestialLocation.rightAscension)
  let longitude := normalizedDegreesLongitude (-GHA)
  { latitude := celestialLocation.declination, longitude := longitude }

/-- `computeSunGeographicLocation` from `CelestialProjection.js`: the
orchestrator.  The exact rational Julian date is embedded into ℝ at the
seam (JavaScript has a single number type). -/
def computeSunGeographicLocation (date : DateTime) : GeographicLocation :=
  let julianDate : ℝ := ((computeJulianDate date : ℚ) : ℝ)
  let celestialLocation := computeSunCelestialLocation julianDate
  celestialToGeographic celestialLocation julianDate

lemma normalizeAngle_nonneg (x : ℝ) : 0 ≤ normalizeAngle x := by
  have h := Int.fract_nonneg (x / 360)
  have he : Int.fract (x / 360) = x / 360 - ⌊x / 360⌋ := rfl
  unfold normalizeAngle
  rw [← he]
  linarith

lemma normalizeAngle_lt_360 (x : ℝ) : normalizeAngle x < 360 := by
  have h := Int.fract_lt_one (x / 360)
  have he : Int.fract (x / 360) = x / 360 - ⌊x / 360⌋ := rfl
  unfold normalizeAngle
  rw [← he]
  linarith

/-- C3: `normalizeAngle` computes `360 * (x/360 - floor(x/360))`, always
lands in [0, 360), and handles negative inputs by floor-based modulo:
`normalizeAngle (-90) = 270`. -/
theorem normalizeAngle_spec :
    (∀ x : ℝ, normalizeAngle x = 360 * (x / 360 - ⌊x / 360⌋) ∧
      0 ≤ normalizeAngle x ∧ normalizeAngle x < 360) ∧
    normalizeAngle (-90) = 270 := by
  refine ⟨fun x => ⟨rfl, normalizeAngle_nonneg x, normalizeAngle_lt_360 x⟩, ?_⟩
  unfold normalizeAngle
  have h : ((-90 : ℝ) / 360) = -(1 / 4) := by norm_num
  have hf : ⌊(-(1 / 4) : ℝ)⌋ = -1 := by
    rw [Int.floor_eq_iff]
    norm_num
  rw [h, hf]
  norm_num

/-- C1: the orchestrator is exactly the composition of the three stages
on the same Julian date, with no additional logic. -/
theorem computeSunGeographicLocation_is_composition (d : DateTime) :
    computeSunGeographicLocation d =
      celestialToGeographic
        (computeSunCelestialLocation ((computeJulianDate d : ℚ) : ℝ))
        ((computeJulianDate d : ℚ) : ℝ) := rfl

/-- C8: `celestialToGeographic` returns the input declination unchanged
as the latitude — no transformation, validation, or clamping, for every
celestial location (also with declination outside [-90, 90]) and every
Julian date. -/
theorem celestialToGeographic_latitude_identity (cl : CelestialLocation) (jd : ℝ) :
    (celestialToGeographic cl jd).latitude = cl.declination := rfl

/-- Greenwich Mean Sidereal Time in degrees, as computed by
`celestialToGeographic`. -/
def GMSTOf (julianDate : ℝ) : ℝ :=
  normalizeAngle (280.46061837 + 360.98564736629 * (julianDate - 2451545))

/-- Greenwich Hour Angle in degrees, as computed by
`celestialToGeographic`. -/
def GHAOf (julianDate rightAscension : ℝ) : ℝ :=
  normalizeAngle (GMSTOf julianDate - rightAscension)

lemma normalizedDegreesLongitude_mem (x : ℝ) :
    -180 < normalizedDegreesLongitude x ∧ normalizedDegreesLongitude x ≤ 180 := by
  unfold normalizedDegreesLongitude
  constructor
  · have h := normalizeAngle_lt_360 (180 - x)
    linarith
  · have h := normalizeAngle_nonneg (180 - x)
    linarith

/-- C7: the longitude produced by `celestialToGeographic` is
`normalizedDegreesLongitude (-GHA)` and always lies in the symmetric
half-open range (-180, 180]. -/
theorem celestialToGeographic_longitude_range (cl : CelestialLocation) (jd : ℝ) :
    (celestialToGeographic cl jd).longitude =
      normalizedDegreesLongitude (-(GHAOf jd cl.rightAscension)) ∧
    -180 < (celestialToGeographic cl jd).longitude ∧
    (celestialToGeographic cl jd).longitude ≤ 180 :=
  ⟨rfl, (normalizedDegreesLongitude_mem (-(GHAOf jd cl.rightAscension))).1,
    (normalizedDegreesLongitude_mem (-(GHAOf jd cl.rightAscension))).2⟩

/-- The sun's mean anomaly in radians, as computed inside
`computeSunCelestialLocation`. -/
def meanAnomalyRadOf (julianDate : ℝ) : ℝ :=
  normalizeAngle (357.528 + 0.9856003 * (julianDate - 2451545)) * DEGREES_TO_RADIANS

/-- The un-normalized ecliptic longitude of step 4 of
`computeSunCelestialLocation` (degrees; may be negative or exceed 360). -/
def eclipticLongitudeOf (julianDate : ℝ) : ℝ :=
  normalizeAngle (280.460 + 0.9856474 * (julianDate - 2451545)) +
    1.915 * Real.sin (meanAnomalyRadOf julianDate) +
    0.02 * Real.sin (2 * meanAnomalyRadOf julianDate)

/-- The obliquity of the ecliptic used by `computeSunCelestialLocation`,
in degrees. -/
def obliquityDegOf (julianDate : ℝ) : ℝ :=
  23.439 - 0.0000004 * (julianDate - 2451545)

/-- The obliquity of the ecliptic used by `computeSunCelestialLocation`,
in radians. -/
def obliquityRadOf (julianDate : ℝ) : ℝ :=
  obliquityDegOf julianDate * DEGREES_TO_RADIANS

/-- The raw right ascension before quadrant correction (degrees). -/
def rawRightAscensionOf (julianDate : ℝ) : ℝ :=
  Real.arctan (Real.cos (obliquityRadOf julianDate) *
      Real.tan (eclipticLongitudeOf julianDate * DEGREES_TO_RADIANS)) *
    RADIANS_TO_DEGREES

/-- C2: 180 degrees is added to the raw right ascension exactly when the
un-normalized ecliptic longitude of step 4 lies in [90, 270) — the test
precedes any normalization of the ecliptic longitude — and the result is
then normalized into [0, 360). -/
theorem computeSunCelestialLocation_quadrant_correction (jd : ℝ) :
    (computeSunCelestialLocation jd).rightAscension =
      normalizeAngle (rawRightAscensionOf jd +
        (if 90 ≤ eclipticLongitudeOf jd ∧ eclipticLongitudeOf jd < 270 then 180 else 0)) ∧
    0 ≤ (computeSunCelestialLocation jd).rightAscension ∧
    (computeSunCelestialLocation jd).rightAscension < 360 := by
  refine ⟨?_, normalizeAngle_nonneg _, normalizeAngle_lt_360 _⟩
  show normalizeAngle (if 90 ≤ eclipticLongitudeOf jd ∧ eclipticLongitudeOf jd < 270 then
      rawRightAscensionOf jd + 180 else rawRightAscensionOf jd) = _
  split_ifs with h
  · rfl
  · rw [add_zero]

lemma DEGREES_TO_RADIANS_nonneg : (0 : ℝ) ≤ DEGREES_TO_RADIANS := by
  unfold DEGREES_TO_RADIANS
  positivity

lemma RADIANS_TO_DEGREES_pos : (0 : ℝ) < RADIANS_TO_DEGREES := by
  unfold RADIANS_TO_DEGREES
  positivity

lemma deg_rad_cancel : DEGREES_TO_RADIANS * RADIANS_TO_DEGREES = 1 := by
  unfold DEGREES_TO_RADIANS RADIANS_TO_DEGREES
  field_simp

lemma abs_arcsin_le_pi_div_two (u : ℝ) : |Real.arcsin u| ≤ Real.pi / 2 :=
  abs_le.mpr ⟨Real.neg_pi_div_two_le_arcsin u, Real.arcsin_le_pi_div_two u⟩

lemma abs_arcsin_le_arcsin_abs (u : ℝ) : |Real.arcsin u| ≤ Real.arcsin |u| := by
  rcases le_or_lt 0 u with h | h
  · rw [abs_of_nonneg h, abs_of_nonneg (Real.arcsin_nonneg.mpr h)]
  · have ha : Real.arcsin u < 0 :=
      not_le.mp ((not_congr Real.arcsin_nonneg).mpr (not_le.mpr h))
    rw [abs_of_neg h, abs_of_neg ha, ← Real.arcsin_neg]

lemma arcsin_abs_sin_eq (x : ℝ) (hx : |x| ≤ Real.pi / 2) : Real.arcsin |Real.sin x| = |x| := by
  have hpi := Real.pi_pos
  rcases le_or_lt 0 x with h | h
  · rw [abs_of_nonneg h] at hx ⊢
    rw [abs_of_nonneg (Real.sin_nonneg_of_nonneg_of_le_pi h (by linarith))]
    exact Real.arcsin_sin (by linarith) hx
  · rw [abs_of_neg h] at hx ⊢
    rw [abs_of_nonpos (Real.sin_nonpos_of_nonnpos_of_neg_pi_le h.le (by linarith)),
      ← Real.sin_neg]
    exact Real.arcsin_sin (by linarith) hx

/-- The degree-valued arcsine of `sin(obliquity) * s` is bounded in
magnitude by the degree-valued obliquity whenever `|s| ≤ 1`. -/
lemma abs_arcsin_scaled_le (oblDeg s : ℝ) (hs : |s| ≤ 1) :
    |Real.arcsin (Real.sin (oblDeg * DEGREES_TO_RADIANS) * s) * RADIANS_TO_DEGREES| ≤
      |oblDeg| := by
  have hpi := Real.pi_pos
  have hR := RADIANS_TO_DEGREES_pos
  have hD := DEGREES_TO_RADIANS_nonneg
  rw [abs_mul, abs_of_nonneg hR.le]
  rcases le_or_lt |oblDeg| 90 with hob | hob
  · have hrad : |oblDeg * DEGREES_TO_RADIANS| ≤ Real.pi / 2 := by
      rw [abs_mul, abs_of_nonneg hD]
      calc |oblDeg| * DEGREES_TO_RADIANS ≤ 90 * DEGREES_TO_RADIANS :=
            mul_le_mul_of_nonneg_right hob hD
        _ = Real.pi / 2 := by unfold DEGREES_TO_RADIANS; ring
    have h1 : |Real.sin (oblDeg * DEGREES_TO_RADIANS) * s| ≤
        |Real.sin (oblDeg * DEGREES_TO_RADIANS)| := by
      rw [abs_mul]
      exact mul_le_of_le_one_right (abs_nonneg _) hs
    have h5 : |Real.arcsin (Real.sin (oblDeg * DEGREES_TO_RADIANS) * s)| ≤
        |oblDeg * DEGREES_TO_RADIANS| :=
      ((abs_arcsin_le_arcsin_abs _).trans (Real.monotone_arcsin h1)).trans_eq
        (arcsin_abs_sin_eq _ hrad)
    calc |Real.arcsin (Real.sin (oblDeg * DEGREES_TO_RADIANS) * s)| * RADIANS_TO_DEGREES
        ≤ |oblDeg * DEGREES_TO_RADIANS| * RADIANS_TO_DEGREES :=
          mul_le_mul_of_nonneg_right h5 hR.le
      _ = |oblDeg| * (DEGREES_TO_RADIANS * RADIANS_TO_DEGREES) := by
          rw [abs_mul, abs_of_nonneg hD]; ring
      _ = |oblDeg| := by rw [deg_rad_cancel, mul_one]
  · calc |Real.arcsin (Real.sin (oblDeg * DEGREES_TO_RADIANS) * s)| * RADIANS_TO_DEGREES
        ≤ (Real.pi / 2) * RADIANS_TO_DEGREES :=
          mul_le_mul_of_nonneg_right (abs_arcsin_le_pi_div_two _) hR.le
      _ = 90 := by
          unfold RADIANS_TO_DEGREES
          field_simp
          ring
      _ ≤ |oblDeg| := hob.le

/-- C5: the declination returned by `computeSunCelestialLocation` is
bounded in magnitude by the obliquity of the ecliptic used in the
computation, hence stays within approximately [-23.5, 23.5] degrees for
Julian dates within several centuries of J2000.0. -/
theorem declination_bounded_by_obliquity (jd : ℝ) :
    |(computeSunCelestialLocation jd).declination| ≤ |obliquityDegOf jd| ∧
    (|jd - 2451545| ≤ 152500 → |(computeSunCelestialLocation jd).declination| ≤ 23.5) := by
  have hdecl : (computeSunCelestialLocation jd).declination =
      Real.arcsin (Real.sin (obliquityDegOf jd * DEGREES_TO_RADIANS) *
        Real.sin (eclipticLongitudeOf jd * DEGREES_TO_RADIANS)) * RADIANS_TO_DEGREES := rfl
  have hs : |Real.sin (eclipticLongitudeOf jd * DEGREES_TO_RADIANS)| ≤ 1 :=
    abs_le.mpr ⟨Real.neg_one_le_sin _, Real.sin_le_one _⟩
  have hmain : |(computeSunCelestialLocation jd).declination| ≤ |obliquityDegOf jd| := by
    rw [hdecl]
    exact abs_arcsin_scaled_le (obliquityDegOf jd) _ hs
  refine ⟨hmain, fun hjd => ?_⟩
  have hob : |obliquityDegOf jd| ≤ 23.5 := by
    obtain ⟨hl, hu⟩ := abs_le.mp hjd
    unfold obliquityDegOf
    apply abs_le.mpr
    constructor <;> nlinarith
  exact hmain.trans hob

/-- Witness for `declination_bounded_by_obliquity` at J2000.0. -/
theorem declination_bounded_by_obliquity_witness :
    |(2451545 : ℝ) - 2451545| ≤ 152500 ∧
    |(computeSunCelestialLocation 2451545).declination| ≤ 23.5 :=
  ⟨by norm_num, (declination_bounded_by_obliquity 2451545).2 (by norm_num)⟩

/-- An `ArgumentError` thrown by the module, carrying the originating
function name and the reason code passed to `Logger.logMessage`. -/
structure ArgumentError where
  fnName : String
  message : String

/-- `computeJulianDate` with its argument check: a missing argument (or
a value that is not a `Date`, which in this typed embedding collapses to
`none`) throws before any computation. -/
def computeJulianDateChecked (date : Option DateTime) : Except ArgumentError ℚ :=
  match date with
  | none => .error ⟨"computeJulianDate", "missingDate"⟩
  | some d => .ok (computeJulianDate d)

/-- `computeSunCelestialLocation` with its `julianDate == null` check. -/
def computeSunCelestialLocationChecked (julianDate : Option ℝ) :
    Except ArgumentError CelestialLocation :=
  match julianDate with
  | none => .error ⟨"computeSunCelestialLocation", "missingJulianDate"⟩
  | some jd => .ok (computeSunCelestialLocation jd)

/-- `celestialToGeographic` with its two argument checks, performed in
source order: the celestial location first, then the Julian date. -/
def celestialToGeographicChecked (celestialLocation : Option CelestialLocation)
    (julianDate : Option ℝ) : Except ArgumentError GeographicLocation :=
  match celestialLocation with
  | none => .error ⟨"celestialToGeographic", "missingCelestialLocation"⟩
  | some cl =>
    match julianDate with
    | none => .error ⟨"celestialToGeographic", "missingJulianDate"⟩
    | some jd => .ok (celestialToGeographic cl jd)

/-- `normalizeAngle` with its `angle == null` check. -/
def normalizeAngleChecked (angle : Option ℝ) : Except ArgumentError ℝ :=
  match angle with
  | none => .error ⟨"normalizeAngle", "missingAngle"⟩
  | some a => .ok (normalizeAngle a)

/-- The orchestrator with its own `date instanceof Date` check. -/
def computeSunGeographicLocationChecked (date : Option DateTime) :
    Except ArgumentError GeographicLocation :=
  match date with
  | none => .error ⟨"computeSunGeographicLocation", "missingDate"⟩
  | some d => .ok (computeSunGeographicLocation d)

/-- C9: every exported operation raises `ArgumentError` — tagged with
its own name and a reason code — when a required argument is missing,
aborting before any computation, and computes the pure result otherwise
(no partial or fallback value). -/
theorem checked_functions_error_behavior :
    (computeSunGeographicLocationChecked none =
      .error ⟨"computeSunGeographicLocation", "missingDate"⟩) ∧
    (∀ d : DateTime, computeSunGeographicLocationChecked (some d) =
      .ok (computeSunGeographicLocation d)) ∧
    (computeSunCelestialLocationChecked none =
      .error ⟨"computeSunCelestialLocation", "missingJulianDate"⟩) ∧
    (∀ jd : ℝ, computeSunCelestialLocationChecked (some jd) =
      .ok (computeSunCelestialLocation jd)) ∧
    (∀ ojd : Option ℝ, celestialToGeographicChecked none ojd =
      .error ⟨"celestialToGeographic", "missingCelestialLocation"⟩) ∧
    (∀ cl : CelestialLocation, celestialToGeographicChecked (some cl) none =
      .error ⟨"celestialToGeographic", "missingJulianDate"⟩) ∧
    (∀ cl : CelestialLocation, ∀ jd : ℝ,
      celestialToGeographicChecked (some cl) (some jd) =
        .ok (celestialToGeographic cl jd)) ∧
    (computeJulianDateChecked none = .error ⟨"computeJulianDate", "missingDate"⟩) ∧
    (∀ d : DateTime, computeJulianDateChecked (some d) = .ok (computeJulianDate d)) ∧
    (normalizeAngleChecked none = .error ⟨"normalizeAngle", "missingAngle"⟩) ∧
    (∀ a : ℝ, normalizeAngleChecked (some a) = .ok (normalizeAngle a)) :=
  ⟨rfl, fun _ => rfl, rfl, fun _ => rfl, fun _ => rfl, fun _ => rfl, fun _ _ => rfl,
    rfl, fun _ => rfl, rfl, fun _ => rfl⟩

end
